import Mathlib

/- Verification of the MyArm 300 kinematics engine
   (src/docker/er-myarm300/iksolver_myarm300.py and scan.py).

   The Python floating-point arithmetic is idealized as real arithmetic.
   Python functions that raise on malformed input, or that return None
   for unreachable targets, are embedded as Option-valued functions
   (none = the failure value).  All definitions are transcribed from the
   source; constants keep their source names. -/

open Real

open scoped Classical

noncomputable section

/-- Position / direction vector, mm (Python list [x, y, z]). -/
structure V3 where
  x : ℝ
  y : ℝ
  z : ℝ

-- MyArm 300 specifications from URDF (in mm)
def BASE_HEIGHT : ℝ := 165
def LINK1_LENGTH : ℝ := 110
def LINK2_LENGTH : ℝ := 126
def WRIST_LENGTH : ℝ := 56

/-- Joint limits in degrees (iksolver_myarm300.py, JOINT_LIMITS). -/
def JOINT_LIMITS : List (ℝ × ℝ) :=
  [(-160, 160), (-80, 80), (-165, 165), (-100, 80),
   (-165, 165), (-110, 110), (-165, 165)]

/-- JOINT_LIMITS[i] (all indices used by the code are < 7). -/
def jlim (i : ℕ) : ℝ × ℝ := JOINT_LIMITS.getD i (0, 0)

/-- math.degrees -/
def degrees (t : ℝ) : ℝ := t * 180 / π

/-- math.radians -/
def radians (d : ℝ) : ℝ := d * π / 180

/-- math.atan2 (signed zeros are not modelled; atan2 0 0 = 0). -/
def atan2 (y x : ℝ) : ℝ :=
  if 0 < x then arctan (y / x)
  else if x < 0 then
    (if 0 ≤ y then arctan (y / x) + π else arctan (y / x) - π)
  else
    (if 0 < y then π / 2 else if y < 0 then -(π / 2) else 0)

/-- The conditional clamp pattern of iksolver_myarm300.py
    (lines 77-79, 150-156): clamp to JOINT_LIMITS[i] only after an
    explicit out-of-range test, otherwise keep the angle. -/
def clamp_if (i : ℕ) (a : ℝ) : ℝ :=
  if ¬((jlim i).1 ≤ a ∧ a ≤ (jlim i).2) then
    max (jlim i).1 (min (jlim i).2 a)
  else a

/-- The unconditional clamp pattern used for the wrist joints
    (lines 175-178): max(lo, min(hi, angle)). -/
def clamp_to (i : ℕ) (a : ℝ) : ℝ := max (jlim i).1 (min (jlim i).2 a)

/-- The per-joint loop of validate_joint_angles: check each angle
    against its JOINT_LIMITS entry, returning False on the first
    violation. -/
def limits_ok : List ℝ → List (ℝ × ℝ) → Bool
  | [], _ => true
  | _ :: _, [] => true
  | a :: rest, (lo, hi) :: lims =>
      if lo ≤ a ∧ a ≤ hi then limits_ok rest lims else false

/-- validate_joint_angles (iksolver_myarm300.py lines 368-387). -/
def validate_joint_angles (joint_angles : List ℝ) : Bool :=
  if joint_angles.length ≠ 7 then false
  else limits_ok joint_angles JOINT_LIMITS

/-- Default end-effector aim direction of cartesian_to_angles: the
    supplied target_orientation, or straight down when none is given
    (lines 92-107). -/
def ee_direction (target_orientation : Option V3) : V3 :=
  match target_orientation with
  | none => ⟨0, 0, -1⟩
  | some v => v

/-- Wrist-center position: back off from the end-effector position
    along the aim direction by WRIST_LENGTH (lines 109-113). -/
def wrist_center (position : V3) (target_orientation : Option V3) : V3 :=
  let ee := ee_direction target_orientation
  ⟨position.x - WRIST_LENGTH * ee.x,
   position.y - WRIST_LENGTH * ee.y,
   position.z - WRIST_LENGTH * ee.z⟩

/-- wrist_r (line 116). -/
def wrist_r (position : V3) (target_orientation : Option V3) : ℝ :=
  let wc := wrist_center position target_orientation
  sqrt (wc.x * wc.x + wc.y * wc.y)

/-- wrist_z_rel (line 117). -/
def wrist_z_rel (position : V3) (target_orientation : Option V3) : ℝ :=
  (wrist_center position target_orientation).z - BASE_HEIGHT

/-- d_to_wrist: distance from the joint-2 origin to the wrist center
    (line 120). -/
def d_to_wrist (position : V3) (target_orientation : Option V3) : ℝ :=
  sqrt (wrist_r position target_orientation * wrist_r position target_orientation +
        wrist_z_rel position target_orientation * wrist_z_rel position target_orientation)

/-- max_reach (line 123). -/
def max_reach : ℝ := LINK1_LENGTH + LINK2_LENGTH

/-- min_reach (line 124). -/
def min_reach : ℝ := |LINK1_LENGTH - LINK2_LENGTH|

/-- The argument of the shoulder-angle acos (line 143); the source
    applies acos to it without clamping. -/
def cos_beta_arg (position : V3) (target_orientation : Option V3) : ℝ :=
  (LINK1_LENGTH * LINK1_LENGTH +
     d_to_wrist position target_orientation * d_to_wrist position target_orientation -
     LINK2_LENGTH * LINK2_LENGTH) /
    (2 * LINK1_LENGTH * d_to_wrist position target_orientation)

/-- Norm of the (pre-normalization) arm direction vector computed in
    _calculate_arm_direction_after_joint3 (line 211). -/
def arm_dir_norm (j1 j2 j3 : ℝ) : ℝ :=
  let shoulder_angle := π / 2 - j2
  let elbow_angle := π + j3
  let total_arm_angle := shoulder_angle + elbow_angle - π
  sqrt (Real.cos total_arm_angle * Real.cos j1 * (Real.cos total_arm_angle * Real.cos j1) +
        Real.cos total_arm_angle * Real.sin j1 * (Real.cos total_arm_angle * Real.sin j1) +
        Real.sin total_arm_angle * Real.sin total_arm_angle)

/-- _calculate_arm_direction_after_joint3 (lines 183-212). -/
def calculate_arm_direction_after_joint3 (j1 j2 j3 : ℝ) : V3 :=
  let shoulder_angle := π / 2 - j2
  let elbow_angle := π + j3
  let total_arm_angle := shoulder_angle + elbow_angle - π
  let arm_dir_x := Real.cos total_arm_angle * Real.cos j1
  let arm_dir_y := Real.cos total_arm_angle * Real.sin j1
  let arm_dir_z := Real.sin total_arm_angle
  let nrm := arm_dir_norm j1 j2 j3
  ⟨arm_dir_x / nrm, arm_dir_y / nrm, arm_dir_z / nrm⟩

/-- The azimuth-difference normalization of _calculate_wrist_angles
    (lines 258-261).  The source uses two while-loops; both azimuths
    are atan2 values in (-pi, pi], so the difference lies in
    (-2*pi, 2*pi) and each loop body runs at most once, which this
    single conditional step reproduces. -/
def normalize_azimuth (t : ℝ) : ℝ :=
  if π < t then t - 2 * π else if t < -π then t + 2 * π else t

/-- _calculate_wrist_angles (lines 215-268), returning
    (joint4, joint5, joint6, joint7) in degrees. -/
def calculate_wrist_angles (arm_direction desired_ee_direction : V3)
    (base_rotation : ℝ) : ℝ × ℝ × ℝ × ℝ :=
  let joint4 : ℝ := 0
  let dot_product := arm_direction.x * desired_ee_direction.x +
    arm_direction.y * desired_ee_direction.y +
    arm_direction.z * desired_ee_direction.z
  let dot_clamped := max (-1) (min 1 dot_product)
  let angle_diff := arccos dot_clamped
  let joint5_raw := degrees angle_diff
  let joint5 := if desired_ee_direction.z < arm_direction.z then -joint5_raw else joint5_raw
  let desired_azimuth := atan2 desired_ee_direction.y desired_ee_direction.x
  let current_azimuth := atan2 arm_direction.y arm_direction.x
  let azimuth_diff := normalize_azimuth (desired_azimuth - current_azimuth)
  let joint6 := degrees azimuth_diff * 0.5
  let joint7 : ℝ := 0
  (joint4, joint5, joint6, joint7)

/-- cartesian_to_angles (iksolver_myarm300.py lines 58-180): inverse
    kinematics; none embeds the Python None ("unreachable"). -/
def cartesian_to_angles (position : V3) (target_orientation : Option V3) :
    Option (List ℝ) :=
  let x := position.x
  let y := position.y
  let joint1 := clamp_if 0 (degrees (atan2 y x))
  let r := sqrt (x * x + y * y)
  let z_adjusted := position.z - BASE_HEIGHT
  let ee_to_target := ee_direction target_orientation
  let d := d_to_wrist position target_orientation
  if max_reach < d then none
  else if d < min_reach then none
  else
    let cos_joint3 := (LINK1_LENGTH * LINK1_LENGTH + LINK2_LENGTH * LINK2_LENGTH - d * d) /
      (2 * LINK1_LENGTH * LINK2_LENGTH)
    let cos_joint3_c := max (-1) (min 1 cos_joint3)
    let joint3_raw := -(180 - degrees (arccos cos_joint3_c))
    let alpha := atan2 (wrist_z_rel position target_orientation)
      (wrist_r position target_orientation)
    let beta := arccos (cos_beta_arg position target_orientation)
    let joint2_raw := 90 - degrees (alpha + beta)
    let joint2 := clamp_if 1 joint2_raw
    let joint3 := clamp_if 2 joint3_raw
    let j1_rad := radians joint1
    let j2_rad := radians joint2
    let j3_rad := radians joint3
    let arm_direction := calculate_arm_direction_after_joint3 j1_rad j2_rad j3_rad
    let w := calculate_wrist_angles arm_direction ee_to_target j1_rad
    some [joint1, joint2, joint3,
          clamp_to 3 w.1, clamp_to 4 w.2.1, clamp_to 5 w.2.2.1, clamp_to 6 w.2.2.2]

/-- Length of the end-effector-to-target vector in
    cartesian_to_angles_with_orientation (line 49). -/
def aim_distance (position target_point : V3) : ℝ :=
  let dx := target_point.x - position.x
  let dy := target_point.y - position.y
  let dz := target_point.z - position.z
  sqrt (dx * dx + dy * dy + dz * dz)

/-- The direction handed to cartesian_to_angles by
    cartesian_to_angles_with_orientation (lines 44-53): the normalized
    end-effector-to-target vector, or straight down when its length is
    below 1e-6. -/
def aim_direction (position target_point : V3) : V3 :=
  let dx := target_point.x - position.x
  let dy := target_point.y - position.y
  let dz := target_point.z - position.z
  let distance := aim_distance position target_point
  if distance < 1e-6 then ⟨0, 0, -1⟩
  else ⟨dx / distance, dy / distance, dz / distance⟩

/-- cartesian_to_angles_with_orientation (lines 31-55). -/
def cartesian_to_angles_with_orientation (position target_point : V3) :
    Option (List ℝ) :=
  cartesian_to_angles position (some (aim_direction position target_point))

-- Workspace reachability filter (scan.py lines 129-163); the link
-- constants are imported there from iksolver_myarm300.

/-- max_horizontal_reach (scan.py line 139): leave a 20 mm margin. -/
def max_horizontal_reach : ℝ := LINK1_LENGTH + LINK2_LENGTH - 20

/-- min_height (scan.py line 152). -/
def min_height : ℝ := BASE_HEIGHT - 120

/-- max_height (scan.py line 153). -/
def max_height : ℝ := BASE_HEIGHT + 250

/-- filter_reachable_points (scan.py lines 129-163): drop a point when
    its horizontal distance exceeds max_horizontal_reach or its height
    is outside [min_height, max_height]; keep the rest in order. -/
def filter_reachable_points : List V3 → List V3
  | [] => []
  | point :: rest =>
    if max_horizontal_reach < sqrt (point.x * point.x + point.y * point.y) then
      filter_reachable_points rest
    else if point.z < min_height ∨ max_height < point.z then
      filter_reachable_points rest
    else point :: filter_reachable_points rest

/-- The predicate a point must satisfy to survive
    filter_reachable_points. -/
def point_reachable (point : V3) : Prop :=
  sqrt (point.x * point.x + point.y * point.y) ≤ max_horizontal_reach ∧
  min_height ≤ point.z ∧ point.z ≤ max_height

/-- 3x3 rotation matrix, stored by rows (numpy 3x3 array). -/
structure M3 where
  r1 : V3
  r2 : V3
  r3 : V3

/-- np.eye(3) -/
def id3 : M3 := ⟨⟨1, 0, 0⟩, ⟨0, 1, 0⟩, ⟨0, 0, 1⟩⟩

/-- 3x3 matrix product (numpy @). -/
def m3mul (A B : M3) : M3 :=
  ⟨⟨A.r1.x * B.r1.x + A.r1.y * B.r2.x + A.r1.z * B.r3.x,
    A.r1.x * B.r1.y + A.r1.y * B.r2.y + A.r1.z * B.r3.y,
    A.r1.x * B.r1.z + A.r1.y * B.r2.z + A.r1.z * B.r3.z⟩,
   ⟨A.r2.x * B.r1.x + A.r2.y * B.r2.x + A.r2.z * B.r3.x,
    A.r2.x * B.r1.y + A.r2.y * B.r2.y + A.r2.z * B.r3.y,
    A.r2.x * B.r1.z + A.r2.y * B.r2.z + A.r2.z * B.r3.z⟩,
   ⟨A.r3.x * B.r1.x + A.r3.y * B.r2.x + A.r3.z * B.r3.x,
    A.r3.x * B.r1.y + A.r3.y * B.r2.y + A.r3.z * B.r3.y,
    A.r3.x * B.r1.z + A.r3.y * B.r2.z + A.r3.z * B.r3.z⟩⟩

/-- Matrix-vector product. -/
def m3vec (A : M3) (v : V3) : V3 :=
  ⟨A.r1.x * v.x + A.r1.y * v.y + A.r1.z * v.z,
   A.r2.x * v.x + A.r2.y * v.y + A.r2.z * v.z,
   A.r3.x * v.x + A.r3.y * v.y + A.r3.z * v.z⟩

def v3add (a b : V3) : V3 := ⟨a.x + b.x, a.y + b.y, a.z + b.z⟩

/-- A 4x4 homogeneous transform with fixed last row (0 0 0 1):
    rotation block T[:3,:3] and translation column T[:3,3]. -/
structure Tf where
  rot : M3
  trans : V3

/-- np.eye(4) -/
def idTf : Tf := ⟨id3, ⟨0, 0, 0⟩⟩

/-- Product of two homogeneous transforms (numpy 4x4 @, restricted to
    the blocks that are not identically fixed). -/
def tfmul (A B : Tf) : Tf := ⟨m3mul A.rot B.rot, v3add (m3vec A.rot B.trans) A.trans⟩

/-- rotation_matrix(axis, angle) of forward_kinematics
    (axis: 0 = X, 1 = Y, 2 = Z). -/
def rotation_matrix (axis : ℕ) (angle : ℝ) : M3 :=
  let c := Real.cos angle
  let s := Real.sin angle
  if axis = 0 then ⟨⟨1, 0, 0⟩, ⟨0, c, -s⟩, ⟨0, s, c⟩⟩
  else if axis = 1 then ⟨⟨c, 0, s⟩, ⟨0, 1, 0⟩, ⟨-s, 0, c⟩⟩
  else ⟨⟨c, -s, 0⟩, ⟨s, c, 0⟩, ⟨0, 0, 1⟩⟩

/-- transform_matrix(translation, rotation_xyz) of forward_kinematics:
    rotations applied in the order X, Y, Z, each skipped when
    abs(angle) <= 1e-6. -/
def transform_matrix (translation : V3) (rotation_xyz : V3) : Tf :=
  let R0 := id3
  let R1 := if 1e-6 < |rotation_xyz.x| then m3mul R0 (rotation_matrix 0 rotation_xyz.x) else R0
  let R2 := if 1e-6 < |rotation_xyz.y| then m3mul R1 (rotation_matrix 1 rotation_xyz.y) else R1
  let R3 := if 1e-6 < |rotation_xyz.z| then m3mul R2 (rotation_matrix 2 rotation_xyz.z) else R2
  ⟨R3, translation⟩

/-- forward_kinematics (iksolver_myarm300.py lines 271-360).
    The Python function raises ValueError unless exactly 7 angles are
    supplied; the raise is embedded as none. -/
def forward_kinematics (joint_angles : List ℝ) : Option V3 :=
  match joint_angles with
  | [a1, a2, a3, a4, a5, a6, a7] =>
    let j1 := radians a1
    let j2 := radians a2
    let j3 := radians a3
    let j4 := radians a4
    let j5 := radians a5
    let j6 := radians a6
    let j7 := radians a7
    let T1 := tfmul (tfmul idTf (transform_matrix ⟨0, 0, 165⟩ ⟨0, 0, 0⟩))
                (transform_matrix ⟨0, 0, 0⟩ ⟨0, 0, j1⟩)
    let T2 := tfmul (tfmul T1 (transform_matrix ⟨0, 0, 0⟩ ⟨-(π / 2), 0, 0⟩))
                (transform_matrix ⟨0, 0, 0⟩ ⟨0, 0, j2⟩)
    let T3 := tfmul (tfmul T2 (transform_matrix ⟨0, -110, 0⟩ ⟨π / 2, 0, 0⟩))
                (transform_matrix ⟨0, 0, 0⟩ ⟨0, 0, j3⟩)
    let T4 := tfmul (tfmul T3 (transform_matrix ⟨0, 0, 0⟩ ⟨-(π / 2), 0, π⟩))
                (transform_matrix ⟨0, 0, 0⟩ ⟨0, 0, j4⟩)
    let T5 := tfmul (tfmul T4 (transform_matrix ⟨0, -126, 0⟩ ⟨π / 2, 0, 0⟩))
                (transform_matrix ⟨0, 0, 0⟩ ⟨0, 0, j5⟩)
    let T6 := tfmul (tfmul T5 (transform_matrix ⟨0, 0, 0⟩ ⟨-(π / 2), 0, 0⟩))
                (transform_matrix ⟨0, 0, 0⟩ ⟨0, 0, j6⟩)
    let T7 := tfmul (tfmul T6 (transform_matrix ⟨0, -56, 0⟩ ⟨π / 2, 0, 0⟩))
                (transform_matrix ⟨0, 0, 0⟩ ⟨0, 0, j7⟩)
    some T7.trans
  | _ => none

-- Definitions end here; the development below settles the claims.

/-- Unfolded characterization of the validator on 7-element vectors,
    shared by several developments below. -/
lemma validate_seven_iff (a1 a2 a3 a4 a5 a6 a7 : ℝ) :
    validate_joint_angles [a1, a2, a3, a4, a5, a6, a7] = true ↔
      ((-160 ≤ a1 ∧ a1 ≤ 160) ∧ (-80 ≤ a2 ∧ a2 ≤ 80) ∧
       (-165 ≤ a3 ∧ a3 ≤ 165) ∧ (-100 ≤ a4 ∧ a4 ≤ 80) ∧
       (-165 ≤ a5 ∧ a5 ≤ 165) ∧ (-110 ≤ a6 ∧ a6 ≤ 110) ∧
       (-165 ≤ a7 ∧ a7 ≤ 165)) := by
  show (if _ then _ else limits_ok _ JOINT_LIMITS) = true ↔ _
  rw [if_neg (by simp)]
  simp only [JOINT_LIMITS, limits_ok]
  split_ifs <;> simp_all

/-- Evaluation helper: sqrt a = b whenever b * b = a and 0 ≤ b. -/
lemma sqrt_eval {a b : ℝ} (hb : 0 ≤ b) (h : b * b = a) : Real.sqrt a = b := by
  rw [← h, Real.sqrt_mul_self hb]

/-- The conditional clamp keeps the angle inside its limit pair. -/
lemma clamp_if_bounds (i : ℕ) (a : ℝ) (h : (jlim i).1 ≤ (jlim i).2) :
    (jlim i).1 ≤ clamp_if i a ∧ clamp_if i a ≤ (jlim i).2 := by
  unfold clamp_if
  split_ifs with hc
  · exact hc
  · exact ⟨le_max_left _ _, max_le h (min_le_left _ _)⟩

/-- The unconditional clamp keeps the angle inside its limit pair. -/
lemma clamp_to_bounds (i : ℕ) (a : ℝ) (h : (jlim i).1 ≤ (jlim i).2) :
    (jlim i).1 ≤ clamp_to i a ∧ clamp_to i a ≤ (jlim i).2 :=
  ⟨le_max_left _ _, max_le h (min_le_left _ _)⟩

/-- C2: the solver returns the unreachable signal (none, no partial
    result) exactly when the wrist-center distance is strictly greater
    than L1+L2 or strictly less than |L1-L2|; otherwise -- including
    exactly at either bound -- it succeeds with a 7-angle vector. -/
theorem ik_unreachable_iff (position : V3) (o : Option V3) :
    (cartesian_to_angles position o = none ↔
      max_reach < d_to_wrist position o ∨ d_to_wrist position o < min_reach) ∧
    (cartesian_to_angles position o).elim True (fun r => r.length = 7) := by
  simp only [cartesian_to_angles]
  split_ifs with h1 h2 <;> simp_all

/-- C5: any successful solve carries, as its first component, the
    base-yaw angle degrees(atan2 y x) passed through the conditional
    joint-1 clamp (so an in-limit raw value is returned unchanged and
    an out-of-limit one is clamped to the nearest bound while the
    computation continues); and at a target with x = y = 100 the raw
    joint-1 value is exactly 45 degrees. -/
theorem ik_joint1_spec :
    (∀ (position : V3) (o : Option V3),
        (cartesian_to_angles position o).elim True
          (fun r => r.getD 0 0 = clamp_if 0 (degrees (atan2 position.y position.x)))) ∧
    degrees (atan2 100 100) = 45 := by
  constructor
  · intro position o
    simp only [cartesian_to_angles]
    split_ifs <;> simp [Option.elim]
  · have h1 : atan2 (100 : ℝ) 100 = π / 4 := by
      unfold atan2
      rw [if_pos (by norm_num)]
      norm_num [Real.arctan_one]
    rw [h1]
    unfold degrees
    field_simp
    ring

/-- C7: every successful solve holds the wrist-roll joints 4 and 7 at
    exactly zero. -/
theorem ik_wrist_rolls_zero (position : V3) (o : Option V3) :
    (cartesian_to_angles position o).elim True
      (fun r => r.getD 3 1 = 0 ∧ r.getD 6 1 = 0) := by
  simp only [cartesian_to_angles]
  split_ifs <;>
    simp [Option.elim, calculate_wrist_angles, clamp_to, jlim, JOINT_LIMITS]

/-- C10: every successful solver result is a 7-angle vector whose
    every component lies within its joint's limit entry, so
    validate_joint_angles accepts it. -/
theorem ik_result_validates (position : V3) (o : Option V3) :
    (cartesian_to_angles position o).elim True
      (fun r => validate_joint_angles r = true) := by
  have h0 : ∀ a : ℝ, (-160 : ℝ) ≤ clamp_if 0 a ∧ clamp_if 0 a ≤ 160 := fun a => by
    simpa [jlim, JOINT_LIMITS] using clamp_if_bounds 0 a (by norm_num [jlim, JOINT_LIMITS])
  have h1 : ∀ a : ℝ, (-80 : ℝ) ≤ clamp_if 1 a ∧ clamp_if 1 a ≤ 80 := fun a => by
    simpa [jlim, JOINT_LIMITS] using clamp_if_bounds 1 a (by norm_num [jlim, JOINT_LIMITS])
  have h2 : ∀ a : ℝ, (-165 : ℝ) ≤ clamp_if 2 a ∧ clamp_if 2 a ≤ 165 := fun a => by
    simpa [jlim, JOINT_LIMITS] using clamp_if_bounds 2 a (by norm_num [jlim, JOINT_LIMITS])
  have h3 : ∀ a : ℝ, (-100 : ℝ) ≤ clamp_to 3 a ∧ clamp_to 3 a ≤ 80 := fun a => by
    simpa [jlim, JOINT_LIMITS] using clamp_to_bounds 3 a (by norm_num [jlim, JOINT_LIMITS])
  have h4 : ∀ a : ℝ, (-165 : ℝ) ≤ clamp_to 4 a ∧ clamp_to 4 a ≤ 165 := fun a => by
    simpa [jlim, JOINT_LIMITS] using clamp_to_bounds 4 a (by norm_num [jlim, JOINT_LIMITS])
  have h5 : ∀ a : ℝ, (-110 : ℝ) ≤ clamp_to 5 a ∧ clamp_to 5 a ≤ 110 := fun a => by
    simpa [jlim, JOINT_LIMITS] using clamp_to_bounds 5 a (by norm_num [jlim, JOINT_LIMITS])
  have h6 : ∀ a : ℝ, (-165 : ℝ) ≤ clamp_to 6 a ∧ clamp_to 6 a ≤ 165 := fun a => by
    simpa [jlim, JOINT_LIMITS] using clamp_to_bounds 6 a (by norm_num [jlim, JOINT_LIMITS])
  simp only [cartesian_to_angles]
  split_ifs <;> simp only [Option.elim]
  rw [validate_seven_iff]
  exact ⟨h0 _, h1 _, h2 _, h3 _, h4 _, h5 _, h6 _⟩

/-- C3: once past the reachability check, every partial operation of
    the solver stays inside its mathematical domain: the unclamped
    shoulder-angle law-of-cosines acos argument lies in [-1, 1], its
    divisor 2*L1*d is nonzero, the norm the arm-direction vector is
    divided by equals 1, and the solver returns a value (some angle
    vector, never an abort). -/
theorem ik_domain_safety (position : V3) (o : Option V3)
    (h1 : ¬ max_reach < d_to_wrist position o)
    (h2 : ¬ d_to_wrist position o < min_reach) :
    (-1 ≤ cos_beta_arg position o ∧ cos_beta_arg position o ≤ 1) ∧
    2 * LINK1_LENGTH * d_to_wrist position o ≠ 0 ∧
    (∀ j1 j2 j3 : ℝ, arm_dir_norm j1 j2 j3 = 1) ∧
    (cartesian_to_angles position o).isSome = true := by
  have hub : d_to_wrist position o ≤ 236 := by
    rw [not_lt] at h1
    have h236 : max_reach = (236 : ℝ) := by norm_num [max_reach, LINK1_LENGTH, LINK2_LENGTH]
    linarith [h236 ▸ h1]
  have hlb : (16 : ℝ) ≤ d_to_wrist position o := by
    rw [not_lt] at h2
    have : min_reach = (16 : ℝ) := by
      norm_num [min_reach, LINK1_LENGTH, LINK2_LENGTH]
    linarith [this ▸ h2]
  have hpos : (0 : ℝ) < 2 * LINK1_LENGTH * d_to_wrist position o := by
    norm_num [LINK1_LENGTH]
    linarith
  refine ⟨⟨?_, ?_⟩, ne_of_gt hpos, ?_, ?_⟩
  · rw [cos_beta_arg, le_div_iff₀ hpos]
    norm_num [LINK1_LENGTH, LINK2_LENGTH]
    nlinarith [hlb, hub]
  · rw [cos_beta_arg, div_le_one hpos]
    norm_num [LINK1_LENGTH, LINK2_LENGTH]
    nlinarith [hlb, hub]
  · have key : ∀ a b : ℝ,
        Real.cos a * Real.cos b * (Real.cos a * Real.cos b) +
          Real.cos a * Real.sin b * (Real.cos a * Real.sin b) +
          Real.sin a * Real.sin a = 1 := by
      intro a b
      have ha := Real.sin_sq_add_cos_sq a
      have hb := Real.sin_sq_add_cos_sq b
      nlinarith [ha, hb]
    intro j1 j2 j3
    simp only [arm_dir_norm]
    rw [key]
    exact Real.sqrt_one
  · simp only [cartesian_to_angles]
    rw [if_neg h1, if_neg h2]
    rfl

/-- Witness for C3 at the concrete target (0, 0, 10) with the default
    downward aim: the wrist-center distance is 99 mm, inside the
    reachable annulus, and the safety conclusions hold there. -/
theorem ik_domain_safety_witness :
    (¬ max_reach < d_to_wrist ⟨0, 0, 10⟩ none) ∧
    (¬ d_to_wrist ⟨0, 0, 10⟩ none < min_reach) ∧
    ((-1 ≤ cos_beta_arg ⟨0, 0, 10⟩ none ∧ cos_beta_arg ⟨0, 0, 10⟩ none ≤ 1) ∧
     2 * LINK1_LENGTH * d_to_wrist ⟨0, 0, 10⟩ none ≠ 0 ∧
     (∀ j1 j2 j3 : ℝ, arm_dir_norm j1 j2 j3 = 1) ∧
     (cartesian_to_angles ⟨0, 0, 10⟩ none).isSome = true) := by
  have hwr : wrist_r ⟨0, 0, 10⟩ none = 0 := by
    simp only [wrist_r, wrist_center, ee_direction, WRIST_LENGTH]
    norm_num
  have hzr : wrist_z_rel ⟨0, 0, 10⟩ none = -99 := by
    simp only [wrist_z_rel, wrist_center, ee_direction, WRIST_LENGTH, BASE_HEIGHT]
    norm_num
  have hd : d_to_wrist ⟨0, 0, 10⟩ none = 99 := by
    rw [d_to_wrist, hwr, hzr]
    norm_num
    exact sqrt_eval (by norm_num) (by norm_num)
  have hmax : ¬ max_reach < d_to_wrist ⟨0, 0, 10⟩ none := by
    rw [hd]
    norm_num [max_reach, LINK1_LENGTH, LINK2_LENGTH]
  have hmin : ¬ d_to_wrist ⟨0, 0, 10⟩ none < min_reach := by
    rw [hd]
    norm_num [min_reach, LINK1_LENGTH, LINK2_LENGTH]
  exact ⟨hmax, hmin, ik_domain_safety ⟨0, 0, 10⟩ none hmax hmin⟩

/-- C9: filter_reachable_points is exactly the order-preserving filter
    of its input by the reachability predicate (horizontal distance at
    most L1+L2-20 and height inside [BASE_HEIGHT-120, BASE_HEIGHT+250]),
    and its result is a subsequence of the input. -/
theorem filter_reachable_points_spec (points : List V3) :
    filter_reachable_points points =
      points.filter (fun p => decide (point_reachable p)) ∧
    (filter_reachable_points points).Sublist points := by
  have key : ∀ l : List V3,
      filter_reachable_points l = l.filter (fun p => decide (point_reachable p)) := by
    intro l
    induction l with
    | nil => rfl
    | cons p rest ih =>
      simp only [filter_reachable_points, List.filter_cons]
      by_cases hA : max_horizontal_reach < sqrt (p.x * p.x + p.y * p.y)
      · rw [if_pos hA, ih]
        have hnr : ¬ point_reachable p := fun hpr => absurd hpr.1 (not_le.mpr hA)
        simp [hnr]
      · rw [if_neg hA]
        by_cases hB : p.z < min_height ∨ max_height < p.z
        · rw [if_pos hB, ih]
          have hnr : ¬ point_reachable p := by
            intro hpr
            rcases hB with hB | hB
            exacts [absurd hpr.2.1 (not_le.mpr hB), absurd hpr.2.2 (not_le.mpr hB)]
          simp [hnr]
        · rw [if_neg hB, ih]
          push_neg at hA hB
          have hr : point_reachable p := ⟨hA, hB.1, hB.2⟩
          simp [hr]
  refine ⟨key points, ?_⟩
  rw [key points]
  exact List.filter_sublist points

/-- C8 counterexample: a direction handed directly to the solver is
    used raw, not normalized.  At target (0, 0, 50) the direction
    (0, 0, -2) makes the solver report unreachable, while its
    normalization (0, 0, -1) yields a solution; had the solver
    normalized internally, the two results would coincide. -/
theorem ik_direction_used_raw :
    cartesian_to_angles ⟨0, 0, 50⟩ (some ⟨0, 0, -2⟩) = none ∧
    (cartesian_to_angles ⟨0, 0, 50⟩ (some ⟨0, 0, -1⟩)).isSome = true := by
  have hwr1 : wrist_r ⟨0, 0, 50⟩ (some ⟨0, 0, -2⟩) = 0 := by
    simp only [wrist_r, wrist_center, ee_direction, WRIST_LENGTH]
    norm_num
  have hzr1 : wrist_z_rel ⟨0, 0, 50⟩ (some ⟨0, 0, -2⟩) = -3 := by
    simp only [wrist_z_rel, wrist_center, ee_direction, WRIST_LENGTH, BASE_HEIGHT]
    norm_num
  have hd1 : d_to_wrist ⟨0, 0, 50⟩ (some ⟨0, 0, -2⟩) = 3 := by
    rw [d_to_wrist, hwr1, hzr1]
    norm_num
    exact sqrt_eval (by norm_num) (by norm_num)
  have hwr2 : wrist_r ⟨0, 0, 50⟩ (some ⟨0, 0, -1⟩) = 0 := by
    simp only [wrist_r, wrist_center, ee_direction, WRIST_LENGTH]
    norm_num
  have hzr2 : wrist_z_rel ⟨0, 0, 50⟩ (some ⟨0, 0, -1⟩) = -59 := by
    simp only [wrist_z_rel, wrist_center, ee_direction, WRIST_LENGTH, BASE_HEIGHT]
    norm_num
  have hd2 : d_to_wrist ⟨0, 0, 50⟩ (some ⟨0, 0, -1⟩) = 59 := by
    rw [d_to_wrist, hwr2, hzr2]
    norm_num
    exact sqrt_eval (by norm_num) (by norm_num)
  constructor
  · simp only [cartesian_to_angles]
    rw [if_neg (by rw [hd1]; norm_num [max_reach, LINK1_LENGTH, LINK2_LENGTH]),
        if_pos (by rw [hd1]; norm_num [min_reach, LINK1_LENGTH, LINK2_LENGTH])]
  · simp only [cartesian_to_angles]
    rw [if_neg (by rw [hd2]; norm_num [max_reach, LINK1_LENGTH, LINK2_LENGTH]),
        if_neg (by rw [hd2]; norm_num [min_reach, LINK1_LENGTH, LINK2_LENGTH])]
    rfl

/-- C8 amended: the aim-at-point variant hands the solver the
    normalized end-effector-to-target direction -- a zero-length
    (below 1e-6) difference is replaced by the default downward
    direction (0, 0, -1) instead of failing, and otherwise the
    direction passed on is unit-length.  (Directions supplied directly
    to cartesian_to_angles are used as-is.) -/
theorem aim_direction_unit (position target_point : V3) :
    cartesian_to_angles_with_orientation position target_point =
      cartesian_to_angles position (some (aim_direction position target_point)) ∧
    ((aim_distance position target_point < 1e-6 ∧
        aim_direction position target_point = ⟨0, 0, -1⟩) ∨
     (¬ aim_distance position target_point < 1e-6 ∧
        (aim_direction position target_point).x * (aim_direction position target_point).x +
          (aim_direction position target_point).y * (aim_direction position target_point).y +
          (aim_direction position target_point).z * (aim_direction position target_point).z
          = 1)) := by
  refine ⟨rfl, ?_⟩
  by_cases h : aim_distance position target_point < 1e-6
  · exact Or.inl ⟨h, by rw [aim_direction, if_pos h]⟩
  · refine Or.inr ⟨h, ?_⟩
    rw [aim_direction, if_neg h]
    have hS : (0 : ℝ) ≤
        (target_point.x - position.x) * (target_point.x - position.x) +
        (target_point.y - position.y) * (target_point.y - position.y) +
        (target_point.z - position.z) * (target_point.z - position.z) := by
      nlinarith [mul_self_nonneg (target_point.x - position.x),
        mul_self_nonneg (target_point.y - position.y),
        mul_self_nonneg (target_point.z - position.z)]
    have hsq : aim_distance position target_point * aim_distance position target_point =
        (target_point.x - position.x) * (target_point.x - position.x) +
        (target_point.y - position.y) * (target_point.y - position.y) +
        (target_point.z - position.z) * (target_point.z - position.z) :=
      Real.mul_self_sqrt hS
    have hne : aim_distance position target_point ≠ 0 := by
      intro h0
      exact h (by rw [h0]; norm_num)
    field_simp
    linarith [hsq]

-- Evaluation lemmas for the forward-kinematics transform chain at the
-- special angles used below.

lemma guard_zero : ¬ ((1e-6 : ℝ) < |(0 : ℝ)|) := by norm_num

lemma guard_pi_half : (1e-6 : ℝ) < |π / 2| := by
  rw [abs_of_pos (by positivity)]
  nlinarith [Real.pi_gt_three]

lemma guard_neg_pi_half : (1e-6 : ℝ) < |(-(π / 2))| := by
  rw [abs_neg]
  exact guard_pi_half

lemma guard_pi : (1e-6 : ℝ) < |π| := by
  rw [abs_of_pos Real.pi_pos]
  nlinarith [Real.pi_gt_three]

lemma radians_zero : radians 0 = 0 := by
  simp [radians]

lemma radians_neg90 : radians (-90) = -(π / 2) := by
  unfold radians
  ring

lemma tm_fix_zero (t : V3) : transform_matrix t ⟨0, 0, 0⟩ = ⟨id3, t⟩ := by
  simp only [transform_matrix]
  rw [if_neg guard_zero, if_neg guard_zero, if_neg guard_zero]

lemma tm_rotZ_zero (t : V3) : transform_matrix t ⟨0, 0, radians 0⟩ = ⟨id3, t⟩ := by
  rw [radians_zero]
  exact tm_fix_zero t

lemma tm_rotX_neg (t : V3) :
    transform_matrix t ⟨-(π / 2), 0, 0⟩ = ⟨⟨⟨1, 0, 0⟩, ⟨0, 0, 1⟩, ⟨0, -1, 0⟩⟩, t⟩ := by
  simp only [transform_matrix]
  rw [if_pos guard_neg_pi_half, if_neg guard_zero, if_neg guard_zero]
  simp [rotation_matrix, m3mul, id3, Real.cos_neg, Real.sin_neg,
    Real.cos_pi_div_two, Real.sin_pi_div_two]

lemma tm_rotX_pos (t : V3) :
    transform_matrix t ⟨π / 2, 0, 0⟩ = ⟨⟨⟨1, 0, 0⟩, ⟨0, 0, -1⟩, ⟨0, 1, 0⟩⟩, t⟩ := by
  simp only [transform_matrix]
  rw [if_pos guard_pi_half, if_neg guard_zero, if_neg guard_zero]
  simp [rotation_matrix, m3mul, id3, Real.cos_pi_div_two, Real.sin_pi_div_two]

lemma tm_rotX_neg_rotZ_pi (t : V3) :
    transform_matrix t ⟨-(π / 2), 0, π⟩ = ⟨⟨⟨-1, 0, 0⟩, ⟨0, 0, 1⟩, ⟨0, 1, 0⟩⟩, t⟩ := by
  simp only [transform_matrix]
  rw [if_pos guard_neg_pi_half, if_neg guard_zero, if_pos guard_pi]
  simp [rotation_matrix, m3mul, id3, Real.cos_neg, Real.sin_neg,
    Real.cos_pi_div_two, Real.sin_pi_div_two, Real.cos_pi, Real.sin_pi]

lemma tm_rotZ_neg90 :
    transform_matrix ⟨0, 0, 0⟩ ⟨0, 0, radians (-90)⟩ =
      ⟨⟨⟨0, 1, 0⟩, ⟨-1, 0, 0⟩, ⟨0, 0, 1⟩⟩, ⟨0, 0, 0⟩⟩ := by
  rw [radians_neg90]
  simp only [transform_matrix]
  rw [if_neg guard_zero, if_neg guard_zero, if_pos guard_neg_pi_half]
  simp [rotation_matrix, m3mul, id3, Real.cos_neg, Real.sin_neg,
    Real.cos_pi_div_two, Real.sin_pi_div_two]

/-- Forward kinematics at the elbow-bent joint vector
    (0, 0, 0, -90, 0, 0, 0): the end effector sits at (182, 0, 275). -/
lemma fk_at_elbow_bend :
    forward_kinematics [0, 0, 0, -90, 0, 0, 0] = some ⟨182, 0, 275⟩ := by
  have s1 : tfmul (tfmul idTf ⟨id3, ⟨0, 0, 165⟩⟩) ⟨id3, ⟨0, 0, 0⟩⟩ =
      (⟨id3, ⟨0, 0, 165⟩⟩ : Tf) := by
    simp [tfmul, m3mul, m3vec, v3add, idTf, id3]
  have s2 : tfmul (tfmul (⟨id3, ⟨0, 0, 165⟩⟩ : Tf)
        ⟨⟨⟨1, 0, 0⟩, ⟨0, 0, 1⟩, ⟨0, -1, 0⟩⟩, ⟨0, 0, 0⟩⟩) ⟨id3, ⟨0, 0, 0⟩⟩ =
      (⟨⟨⟨1, 0, 0⟩, ⟨0, 0, 1⟩, ⟨0, -1, 0⟩⟩, ⟨0, 0, 165⟩⟩ : Tf) := by
    simp [tfmul, m3mul, m3vec, v3add, idTf, id3]
  have s3 : tfmul (tfmul (⟨⟨⟨1, 0, 0⟩, ⟨0, 0, 1⟩, ⟨0, -1, 0⟩⟩, ⟨0, 0, 165⟩⟩ : Tf)
        ⟨⟨⟨1, 0, 0⟩, ⟨0, 0, -1⟩, ⟨0, 1, 0⟩⟩, ⟨0, -110, 0⟩⟩) ⟨id3, ⟨0, 0, 0⟩⟩ =
      (⟨id3, ⟨0, 0, 275⟩⟩ : Tf) := by
    simp [tfmul, m3mul, m3vec, v3add, idTf, id3]
    norm_num
  have s4 : tfmul (tfmul (⟨id3, ⟨0, 0, 275⟩⟩ : Tf)
        ⟨⟨⟨-1, 0, 0⟩, ⟨0, 0, 1⟩, ⟨0, 1, 0⟩⟩, ⟨0, 0, 0⟩⟩)
        ⟨⟨⟨0, 1, 0⟩, ⟨-1, 0, 0⟩, ⟨0, 0, 1⟩⟩, ⟨0, 0, 0⟩⟩ =
      (⟨⟨⟨0, -1, 0⟩, ⟨0, 0, 1⟩, ⟨-1, 0, 0⟩⟩, ⟨0, 0, 275⟩⟩ : Tf) := by
    simp [tfmul, m3mul, m3vec, v3add, idTf, id3]
  have s5 : tfmul (tfmul (⟨⟨⟨0, -1, 0⟩, ⟨0, 0, 1⟩, ⟨-1, 0, 0⟩⟩, ⟨0, 0, 275⟩⟩ : Tf)
        ⟨⟨⟨1, 0, 0⟩, ⟨0, 0, -1⟩, ⟨0, 1, 0⟩⟩, ⟨0, -126, 0⟩⟩) ⟨id3, ⟨0, 0, 0⟩⟩ =
      (⟨⟨⟨0, 0, 1⟩, ⟨0, 1, 0⟩, ⟨-1, 0, 0⟩⟩, ⟨126, 0, 275⟩⟩ : Tf) := by
    simp [tfmul, m3mul, m3vec, v3add, idTf, id3]
  have s6 : tfmul (tfmul (⟨⟨⟨0, 0, 1⟩, ⟨0, 1, 0⟩, ⟨-1, 0, 0⟩⟩, ⟨126, 0, 275⟩⟩ : Tf)
        ⟨⟨⟨1, 0, 0⟩, ⟨0, 0, 1⟩, ⟨0, -1, 0⟩⟩, ⟨0, 0, 0⟩⟩) ⟨id3, ⟨0, 0, 0⟩⟩ =
      (⟨⟨⟨0, -1, 0⟩, ⟨0, 0, 1⟩, ⟨-1, 0, 0⟩⟩, ⟨126, 0, 275⟩⟩ : Tf) := by
    simp [tfmul, m3mul, m3vec, v3add, idTf, id3]
  have s7 : tfmul (tfmul (⟨⟨⟨0, -1, 0⟩, ⟨0, 0, 1⟩, ⟨-1, 0, 0⟩⟩, ⟨126, 0, 275⟩⟩ : Tf)
        ⟨⟨⟨1, 0, 0⟩, ⟨0, 0, -1⟩, ⟨0, 1, 0⟩⟩, ⟨0, -56, 0⟩⟩) ⟨id3, ⟨0, 0, 0⟩⟩ =
      (⟨⟨⟨0, 0, 1⟩, ⟨0, 1, 0⟩, ⟨-1, 0, 0⟩⟩, ⟨182, 0, 275⟩⟩ : Tf) := by
    simp [tfmul, m3mul, m3vec, v3add, idTf, id3]
    norm_num
  simp only [forward_kinematics, tm_fix_zero, tm_rotZ_zero, tm_rotX_neg, tm_rotX_pos,
    tm_rotX_neg_rotZ_pi, tm_rotZ_neg90]
  rw [s1, s2, s3, s4, s5, s6, s7]

/-- The inverse-kinematics solver rejects the position produced by
    fk_at_elbow_bend: its assumed wrist center lies sqrt 60680 mm from
    the joint-2 origin, beyond max reach. -/
lemma ik_rejects_elbow_bend_position :
    cartesian_to_angles ⟨182, 0, 275⟩ none = none := by
  have hwr : wrist_r ⟨182, 0, 275⟩ none = 182 := by
    simp only [wrist_r, wrist_center, ee_direction, WRIST_LENGTH]
    norm_num
    exact sqrt_eval (by norm_num) (by norm_num)
  have hzr : wrist_z_rel ⟨182, 0, 275⟩ none = 166 := by
    simp only [wrist_z_rel, wrist_center, ee_direction, WRIST_LENGTH, BASE_HEIGHT]
    norm_num
  have hgt : max_reach < d_to_wrist ⟨182, 0, 275⟩ none := by
    rw [d_to_wrist, hwr, hzr]
    have h236 : max_reach = Real.sqrt 55696 := by
      rw [sqrt_eval (b := 236) (by norm_num) (by norm_num)]
      norm_num [max_reach, LINK1_LENGTH, LINK2_LENGTH]
    rw [h236]
    apply Real.sqrt_lt_sqrt (by norm_num)
    norm_num

  simp only [cartesian_to_angles]
  rw [if_pos hgt]

/-- C1 (code bug evidence): the joint vector (0, 0, 0, -90, 0, 0, 0)
    lies within every joint limit and bends the elbow 90 degrees (far
    from the fully-extended and fully-folded singularities), yet the
    position forwardKinematics assigns to it is rejected as unreachable
    by inverseKinematics, so the round trip cannot reproduce the
    position at all, let alone within 5 mm per coordinate. -/
theorem round_trip_failure :
    validate_joint_angles [0, 0, 0, -90, 0, 0, 0] = true ∧
    forward_kinematics [0, 0, 0, -90, 0, 0, 0] = some ⟨182, 0, 275⟩ ∧
    cartesian_to_angles ⟨182, 0, 275⟩ none = none := by
  refine ⟨?_, fk_at_elbow_bend, ik_rejects_elbow_bend_position⟩
  rw [validate_seven_iff]
  norm_num

/-- C6: forward_kinematics fails (returns the embedded
    input-validation failure) exactly when its input does not contain
    exactly 7 angles; on every 7-angle input -- with no joint-limit
    check -- it returns a position. -/
theorem forward_kinematics_arity (joint_angles : List ℝ) :
    (forward_kinematics joint_angles).isSome = true ↔ joint_angles.length = 7 := by
  rcases joint_angles with _ | ⟨a1, _ | ⟨a2, _ | ⟨a3, _ | ⟨a4, _ | ⟨a5, _ | ⟨a6, _ | ⟨a7, _ | ⟨a8, rest⟩⟩⟩⟩⟩⟩⟩⟩ <;>
    simp [forward_kinematics]

/-- C4: validate_joint_angles on a 7-element vector returns true iff
    every component lies within its joint's inclusive [min, max] entry
    of JOINT_LIMITS, and returns false iff some component lies strictly
    outside its entry. -/
theorem validate_joint_angles_spec (a1 a2 a3 a4 a5 a6 a7 : ℝ) :
    (validate_joint_angles [a1, a2, a3, a4, a5, a6, a7] = true ↔
      ((-160 ≤ a1 ∧ a1 ≤ 160) ∧ (-80 ≤ a2 ∧ a2 ≤ 80) ∧
       (-165 ≤ a3 ∧ a3 ≤ 165) ∧ (-100 ≤ a4 ∧ a4 ≤ 80) ∧
       (-165 ≤ a5 ∧ a5 ≤ 165) ∧ (-110 ≤ a6 ∧ a6 ≤ 110) ∧
       (-165 ≤ a7 ∧ a7 ≤ 165))) ∧
    (validate_joint_angles [a1, a2, a3, a4, a5, a6, a7] = false ↔
      ¬((-160 ≤ a1 ∧ a1 ≤ 160) ∧ (-80 ≤ a2 ∧ a2 ≤ 80) ∧
        (-165 ≤ a3 ∧ a3 ≤ 165) ∧ (-100 ≤ a4 ∧ a4 ≤ 80) ∧
        (-165 ≤ a5 ∧ a5 ≤ 165) ∧ (-110 ≤ a6 ∧ a6 ≤ 110) ∧
        (-165 ≤ a7 ∧ a7 ≤ 165))) := by
  constructor
  · exact validate_seven_iff a1 a2 a3 a4 a5 a6 a7
  · rw [← validate_seven_iff a1 a2 a3 a4 a5 a6 a7]
    cases h : validate_joint_angles [a1, a2, a3, a4, a5, a6, a7] <;> simp [h]

end
